import Mathlib

/-!
Shallow embedding of the AI voice agent pipeline (backend.py, tts_service.py).

External collaborators (the Whisper recognition backend, the Gemini remote
generation call, the Piper subprocess, the wall clock and the filesystem) are
modelled as explicit environment records; the code under verification is the
Python control flow around them, translated function by function.

Byte sequences are lists of naturals (one per byte); exceptions become
`Except` values; filesystem side effects of `tts_service.speak` are recorded
as an explicit effect trace plus the final state of the output file.
-/

namespace VoiceAgent

/-- A byte string (Python `bytes`), one `Nat` per byte. -/
abbrev Bytes := List Nat

/-- Embeds Python `str.strip()`: remove whitespace from both ends, modelled
structurally over the character list. -/
def pyStrip (s : String) : String :=
  String.mk (((s.toList.dropWhile Char.isWhitespace).reverse.dropWhile
    Char.isWhitespace).reverse)

/-- Embeds the guard `not text or not text.strip()` from `tts_service.speak`. -/
def isBlank (s : String) : Bool := s.isEmpty || (pyStrip s).isEmpty

/-! ## tts_service.py -/

/-- The exceptions `tts_service.speak` can raise.  `piperExecFail`,
`piperNonzero` and `piperBadOutput` are the three `PiperError` raise sites;
`fileNotFoundExe` / `fileNotFoundModel` are the two `FileNotFoundError` sites
of `_validate_paths`; `valueError` is the blank-input rejection.
`piperNonzero` carries the decoded return code, standard output and standard
error from which the source interpolates its message string. -/
inductive SpeakError where
  | valueError : SpeakError
  | fileNotFoundExe : String → SpeakError
  | fileNotFoundModel : String → SpeakError
  | piperExecFail : String → SpeakError
  | piperNonzero : Int → String → String → SpeakError
  | piperBadOutput : SpeakError
deriving DecidableEq, Repr

/-- `True` exactly for the `PiperError` class of `tts_service`. -/
def SpeakError.isSynthesisError : SpeakError → Bool
  | .piperExecFail _ => true
  | .piperNonzero _ _ _ => true
  | .piperBadOutput => true
  | _ => false

/-- `True` exactly for the `FileNotFoundError` conditions (the spec calls
these `ConfigurationError`). -/
def SpeakError.isConfigurationError : SpeakError → Bool
  | .fileNotFoundExe _ => true
  | .fileNotFoundModel _ => true
  | _ => false

/-- Embedding of Python `repr` on a string as used by the `{x!r}`
interpolations; for strings with no quote or escape characters `repr`
is the string wrapped in single quotes. -/
def pyRepr (s : String) : String := "\x27" ++ s ++ "\x27"

/-- The message strings `str(e)` of the exceptions, rebuilt from the raise
sites of `tts_service.speak` (the temporary output path interpolated into the
`piperBadOutput` message is omitted from the model). -/
def SpeakError.msg : SpeakError → String
  | .valueError => "`text` must be a non-empty string"
  | .fileNotFoundExe p => "Piper executable not found at: " ++ p
  | .fileNotFoundModel p => "Piper model not found at: " ++ p
  | .piperExecFail m => "Failed to execute Piper binary: " ++ m
  | .piperNonzero code outS errS =>
      "Piper failed (code=" ++ toString code ++ "). stdout: " ++ pyRepr outS
        ++ " stderr: " ++ pyRepr errS
  | .piperBadOutput => "Piper reported success but output file is missing or empty"

/-- Result of `subprocess.run` when it returns: return code plus the decoded
standard output and standard error. -/
structure ProcResult where
  returncode : Int
  stdoutS : String
  stderrS : String
deriving DecidableEq, Repr

/-- Behaviour of one Piper subprocess invocation: either `subprocess.run`
itself raises (`execResult = .error msg`), or it returns a `ProcResult`;
`written` is the content of the output file after the invocation
(`none` = no file at that path). -/
structure PiperRun where
  execResult : Except String ProcResult
  written : Option Bytes
deriving Repr

/-- Environment of `tts_service.speak`: the configured executable/model paths
and their existence, the content previously at a caller-supplied output path,
and the behaviour of the subprocess as a function of the input text. -/
structure TtsEnv where
  exePath : String
  modelPath : String
  exeExists : Bool
  modelExists : Bool
  priorOut : Option Bytes
  run : String → PiperRun

/-- Filesystem actions `tts_service.speak` can perform, in order. -/
inductive FsEffect where
  | createTemp : FsEffect
  | mkdirParents : FsEffect
  | invokePiper : FsEffect
  | unlinkOut : FsEffect
deriving DecidableEq, Repr

/-- Outcome of one call to `tts_service.speak`: the returned value or raised
exception, the ordered trace of filesystem actions, and the final content of
the output file (`none` = no file). On success the source returns the path;
since the caller immediately reads that file, the model returns its bytes. -/
structure SpeakResult where
  result : Except SpeakError Bytes
  effects : List FsEffect
  outFile : Option Bytes
deriving Repr

/-- Output-file content visible when `speak` raises before preparing the
output file: a caller-supplied path keeps its prior content, otherwise no
file was ever created. -/
def initialOut (env : TtsEnv) (outputPath : Option String) : Option Bytes :=
  match outputPath with
  | some _ => env.priorOut
  | none => none

/-- Embeds `tts_service.speak`.  Control flow mirrors the source: blank-input
check, `_validate_paths`, output-file preparation, `subprocess.run`, return
code check with best-effort unlink of a partial file, empty-output check,
success. -/
def speak (env : TtsEnv) (text : String) (outputPath : Option String) : SpeakResult :=
  if isBlank text then
    { result := .error .valueError, effects := [], outFile := initialOut env outputPath }
  else if env.exeExists = false then
    { result := .error (.fileNotFoundExe env.exePath), effects := [],
      outFile := initialOut env outputPath }
  else if env.modelExists = false then
    { result := .error (.fileNotFoundModel env.modelPath), effects := [],
      outFile := initialOut env outputPath }
  else
    let prep : List FsEffect :=
      match outputPath with
      | some _ => [.mkdirParents]
      | none => [.createTemp]
    let preState : Option Bytes :=
      match outputPath with
      | some _ => env.priorOut
      | none => some []
    match env.run text with
    | { execResult := .error m, written := _ } =>
        { result := .error (.piperExecFail m),
          effects := prep ++ [.invokePiper],
          outFile := preState }
    | { execResult := .ok proc, written := w } =>
        if proc.returncode = 0 then
          match w with
          | none =>
              { result := .error .piperBadOutput,
                effects := prep ++ [.invokePiper],
                outFile := none }
          | some bs =>
              if bs.isEmpty then
                { result := .error .piperBadOutput,
                  effects := prep ++ [.invokePiper],
                  outFile := some bs }
              else
                { result := .ok bs,
                  effects := prep ++ [.invokePiper],
                  outFile := some bs }
        else
          match w with
          | some _ =>
              { result := .error (.piperNonzero proc.returncode proc.stdoutS proc.stderrS),
                effects := prep ++ [.invokePiper, .unlinkOut],
                outFile := none }
          | none =>
              { result := .error (.piperNonzero proc.returncode proc.stdoutS proc.stderrS),
                effects := prep ++ [.invokePiper],
                outFile := none }

/-! ## backend.py: errors and core processing functions -/

/-- FastAPI `HTTPException(status_code, detail)`. -/
structure HErr where
  status : Nat
  detail : String
deriving DecidableEq, Repr

/-- `str(HTTPException)`, which Starlette renders as
`f"\x7bstatus_code\x7d: \x7bdetail\x7d"`. -/
def herrStr (e : HErr) : String := toString e.status ++ ": " ++ e.detail

/-- Embeds `backend.synthesize_speech`: call `tts_service.speak` with no
output path, read the produced file (its bytes are `speak`'s success value in
the model), best-effort delete it; any raised exception is converted to an
`HTTPException(500, "Speech synthesis failed: " + str(e))`. -/
def synthesize_speech (env : TtsEnv) (text : String) : Except HErr Bytes :=
  match (speak env text none).result with
  | .ok bs => .ok bs
  | .error e => .error { status := 500, detail := "Speech synthesis failed: " ++ e.msg }

/-- Environment of `backend.transcribe_audio`: whether the process-wide
`whisper_model` handle is loaded (`whisper_model is not None`), and the
behaviour of `whisper_model.transcribe` on the written payload — either the
list of segment texts or a raised exception's message. -/
structure SttEnv where
  modelLoaded : Bool
  backend : Bytes → Except String (List String)

/-- Outcome of one call to `backend.transcribe_audio`: the returned
transcript or raised `HTTPException`, whether the temporary payload file was
created, and whether it was removed before the call returned. -/
structure SttResult where
  result : Except HErr String
  tmpCreated : Bool
  tmpRemoved : Bool
deriving Repr

/-- Embeds `backend.transcribe_audio`: `503` when the handle is `None`;
otherwise write the payload to a temporary file, run the backend, join the
segment texts with spaces, `os.unlink` the temporary file, and return the
stripped transcript.  A backend exception is caught and re-raised as
`HTTPException(500, "Transcription failed: " + str(e))`; the `os.unlink`
statement sits after the transcription call inside the `try` block, so it is
not executed on that path. -/
def transcribe_audio (env : SttEnv) (payload : Bytes) : SttResult :=
  if env.modelLoaded then
    match env.backend payload with
    | .ok segs =>
        { result := .ok (pyStrip (String.intercalate " " segs)),
          tmpCreated := true, tmpRemoved := true }
    | .error m =>
        { result := .error { status := 500, detail := "Transcription failed: " ++ m },
          tmpCreated := true, tmpRemoved := false }
  else
    { result := .error { status := 503, detail := "Whisper model not loaded" },
      tmpCreated := false, tmpRemoved := false }

/-- The fallback string returned when `GEMINI_API_KEY` is not configured. -/
def fallbackNoKey : String :=
  "I\x27m sorry, the AI service is not configured. Please set GEMINI_API_KEY."

/-- The apology string returned when the remote generation call raises. -/
def fallbackError : String :=
  "I\x27m sorry, I encountered an error processing your request."

/-- The prompt template of `backend.generate_llm_response`:
`f"\x7bSYSTEM_PROMPT\x7d\n\nUser: \x7buser_text\x7d\n\nAssistant:"`. -/
def full_prompt (systemPrompt userText : String) : String :=
  systemPrompt ++ "\n\nUser: " ++ userText ++ "\n\nAssistant:"

/-- Environment of `backend.generate_llm_response`: the optional
`GEMINI_API_KEY` credential, the configured `SYSTEM_PROMPT`, and the
behaviour of the whole remote interaction (`GenerativeModel` construction,
`generate_content`, `.text`) as a function of the prompt — `.error` when any
of those raises. -/
structure GenEnv where
  apiKey : Option String
  systemPrompt : String
  remote : String → Except String String

/-- Embeds `backend.generate_llm_response`: fixed fallback when no credential
is configured; otherwise call the remote service on the templated prompt and
return the stripped reply; any exception is caught and degraded to the fixed
apology string.  The `Except HErr` codomain records that no path raises. -/
def generate_llm_response (env : GenEnv) (userText : String) : Except HErr String :=
  if env.apiKey.isNone then
    .ok fallbackNoKey
  else
    match env.remote (full_prompt env.systemPrompt userText) with
    | .ok t => .ok (pyStrip t)
    | .error _ => .ok fallbackError

/-! ## backend.py: request handlers -/

/-- The `TextResponse` model: returned text plus measured elapsed time.
Wall-clock instants are supplied as explicit integer parameters to the
handlers; `processing_time` is their difference. -/
structure TimedResponse where
  text : String
  processing_time : Int
deriving DecidableEq, Repr

/-- Embeds `backend.transcribe_endpoint`: read the upload, transcribe it, and
report elapsed time; any exception (including the `HTTPException`s raised by
`transcribe_audio`) is caught and re-raised as `HTTPException(500, str(e))`. -/
def transcribe_endpoint (env : SttEnv) (t0 t1 : Int) (payload : Bytes) :
    Except HErr TimedResponse :=
  match (transcribe_audio env payload).result with
  | .ok t => .ok { text := t, processing_time := t1 - t0 }
  | .error e => .error { status := 500, detail := herrStr e }

/-- Embeds `backend.chat_endpoint`: generate the reply and report elapsed
time; exceptions are caught and re-raised as `HTTPException(500, str(e))`. -/
def chat_endpoint (env : GenEnv) (t0 t1 : Int) (reqText : String) :
    Except HErr TimedResponse :=
  match generate_llm_response env reqText with
  | .ok s => .ok { text := s, processing_time := t1 - t0 }
  | .error e => .error { status := 500, detail := herrStr e }

/-- Embeds `backend.synthesize_endpoint`: synthesize and stream the audio
bytes; exceptions are caught and re-raised as `HTTPException(500, str(e))`. -/
def synthesize_endpoint (env : TtsEnv) (reqText : String) : Except HErr Bytes :=
  match synthesize_speech env reqText with
  | .ok bs => .ok bs
  | .error e => .error { status := 500, detail := herrStr e }

/-! ## base64 (Python `base64.b64encode`) -/

/-- The standard base64 alphabet. -/
def b64Chars : List Char :=
  ("ABCDEFGHIJKLMNOPQRSTUVWXYZabcdefghijklmnopqrstuvwxyz0123456789+/").toList

/-- The base64 digit for a 6-bit value. -/
def b64Char (n : Nat) : Char := b64Chars.getD n (Char.ofNat 65)

/-- Standard base64 encoding of a byte sequence, three bytes to four
digits, `=`-padded. -/
def b64encode : Bytes → String
  | [] => ""
  | [a] =>
      String.mk [b64Char (a / 4), b64Char ((a % 4) * 16)] ++ "=="
  | [a, b] =>
      String.mk [b64Char (a / 4), b64Char ((a % 4) * 16 + b / 16),
        b64Char ((b % 16) * 4)] ++ "="
  | a :: b :: c :: rest =>
      String.mk [b64Char (a / 4), b64Char ((a % 4) * 16 + b / 16),
        b64Char ((b % 16) * 4 + c / 64), b64Char (c % 64)] ++ b64encode rest

/-- The JSON body of `backend.voice_chat_complete_endpoint`. -/
structure VCCResponse where
  transcription : String
  llm_response : String
  audio_base64 : String
  processing_time : Int
deriving DecidableEq, Repr

/-- Embeds `backend.voice_chat_complete_endpoint`: transcribe, generate,
synthesize, base64-encode the audio; any exception raised inside the `try`
block is caught and re-raised as `HTTPException(500, str(e))`. -/
def voice_chat_complete_endpoint (stt : SttEnv) (gen : GenEnv) (tts : TtsEnv)
    (t0 t1 : Int) (payload : Bytes) : Except HErr VCCResponse :=
  match (transcribe_audio stt payload).result with
  | .error e => .error { status := 500, detail := herrStr e }
  | .ok tr =>
    match generate_llm_response gen tr with
    | .error e => .error { status := 500, detail := herrStr e }
    | .ok reply =>
      match synthesize_speech tts reply with
      | .error e => .error { status := 500, detail := herrStr e }
      | .ok bs =>
          .ok { transcription := tr, llm_response := reply,
                audio_base64 := b64encode bs, processing_time := t1 - t0 }

/-- Projection of the combined route's outcome onto the three fields the
refinement claim compares (transcript, reply, base64 audio). -/
def vccProj : Except HErr VCCResponse → Except HErr (String × String × String)
  | .ok r => .ok (r.transcription, r.llm_response, r.audio_base64)
  | .error e => .error e

/-- Spec-side composition for the refinement claim: call the transcribe
route, then the chat route on its transcript, then the synthesize route on
its reply, and base64-encode the returned audio, propagating any structured
error unchanged. -/
def composedPipeline (stt : SttEnv) (gen : GenEnv) (tts : TtsEnv)
    (ta0 ta1 tb0 tb1 : Int) (payload : Bytes) : Except HErr (String × String × String) :=
  match transcribe_endpoint stt ta0 ta1 payload with
  | .error e => .error e
  | .ok tr =>
    match chat_endpoint gen tb0 tb1 tr.text with
    | .error e => .error e
    | .ok ch =>
      match synthesize_endpoint tts ch.text with
      | .error e => .error e
      | .ok bs => .ok (tr.text, ch.text, b64encode bs)

/-! ## backend.py: websocket endpoint -/

/-- Outbound messages of the realtime channel, in the order they are sent. -/
inductive WsMsg where
  | textResponse : String → String → WsMsg
  | audioChunk : Bytes → WsMsg
  | audioComplete : WsMsg
  | errorMsg : String → WsMsg
deriving DecidableEq, Repr

/-- Embeds the chunking loop
`for i in range(0, len(audio_response), chunk_size): audio_response[i:i+chunk_size]`:
successive slices of length `cs` of which the last may be shorter. -/
def pyChunks (cs : Nat) (l : Bytes) : List Bytes :=
  if h : l = [] ∨ cs = 0 then []
  else l.take cs :: pyChunks cs (l.drop cs)
termination_by l.length
decreasing_by
  have hl : l ≠ [] := fun hnil => h (Or.inl hnil)
  have hcs : cs ≠ 0 := fun hz => h (Or.inr hz)
  simp only [List.length_drop]
  exact Nat.sub_lt (List.length_pos.mpr hl) (Nat.pos_of_ne_zero hcs)

/-- The payloads of the binary frames among a message sequence. -/
def sentChunks (ms : List WsMsg) : List Bytes :=
  ms.filterMap fun m =>
    match m with
    | .audioChunk b => some b
    | _ => none

/-- Embeds the body of the `while True` loop of
`backend.websocket_voice_endpoint` for one received binary frame: the
messages sent during that turn.  The inner `try` wraps the whole turn, so a
message already sent before a later stage raises has already gone out; the
`except` then sends a single `\x7btype: "error", message: str(e)\x7d`. -/
def processTurn (stt : SttEnv) (gen : GenEnv) (tts : TtsEnv) (payload : Bytes) :
    List WsMsg :=
  match (transcribe_audio stt payload).result with
  | .error e => [.errorMsg (herrStr e)]
  | .ok tr =>
    match generate_llm_response gen tr with
    | .error e => [.errorMsg (herrStr e)]
    | .ok reply =>
      match synthesize_speech tts reply with
      | .error e => [.textResponse tr reply, .errorMsg (herrStr e)]
      | .ok bs =>
          .textResponse tr reply :: ((pyChunks 8192 bs).map .audioChunk ++ [.audioComplete])

/-- The two states of the realtime channel. -/
inductive ChanState where
  | Open : ChanState
  | Closed : ChanState
deriving DecidableEq, Repr

/-- Inbound events on the realtime channel: a binary frame, or a
client-initiated disconnect / transport failure raised by `receive_bytes`. -/
inductive WsEvent where
  | frame : Bytes → WsEvent
  | disconnect : WsEvent
deriving Repr

/-- One iteration of the `websocket_voice_endpoint` loop: a disconnect ends
the loop (`Closed`); a received frame is processed by the inner `try/except`
and the loop continues (`Open`) whether the turn succeeded or failed. -/
def wsStep (stt : SttEnv) (gen : GenEnv) (tts : TtsEnv) :
    ChanState → WsEvent → List WsMsg × ChanState
  | .Closed, _ => ([], .Closed)
  | .Open, .disconnect => ([], .Closed)
  | .Open, .frame b => (processTurn stt gen tts b, .Open)

/-! ## Helper lemmas -/

/-- Fuel-indexed form of the chunk concatenation property. -/
theorem pyChunks_flatten_aux (cs : Nat) (hcs : cs ≠ 0) :
    ∀ n : Nat, ∀ l : Bytes, l.length ≤ n → (pyChunks cs l).flatten = l := by
  intro n
  induction n with
  | zero =>
      intro l hl
      have hnil : l = [] := List.length_eq_zero.mp (Nat.le_zero.mp hl)
      rw [pyChunks]
      simp [hnil]
  | succ n ih =>
      intro l hl
      rw [pyChunks]
      split
      · rename_i hc
        rcases hc with h1 | h2
        · simp [h1]
        · exact absurd h2 hcs
      · rename_i hc
        have hl0 : l ≠ [] := fun hnil => hc (Or.inl hnil)
        simp only [List.flatten_cons]
        rw [ih (l.drop cs) ?hfuel]
        · exact List.take_append_drop cs l
        case hfuel =>
          have h1 : 0 < l.length := List.length_pos.mpr hl0
          have h2 : 0 < cs := Nat.pos_of_ne_zero hcs
          simp only [List.length_drop]
          omega

/-- Concatenating the slices reproduces the sliced list. -/
theorem pyChunks_flatten (cs : Nat) (hcs : cs ≠ 0) (l : Bytes) :
    (pyChunks cs l).flatten = l :=
  pyChunks_flatten_aux cs hcs l.length l (Nat.le_refl _)

/-- The slicing loop yields no chunk exactly on empty input. -/
theorem pyChunks_eq_nil_iff (cs : Nat) (hcs : cs ≠ 0) (l : Bytes) :
    pyChunks cs l = [] ↔ l = [] := by
  constructor
  · intro h
    rw [pyChunks] at h
    split at h
    · rename_i hc
      rcases hc with h1 | h2
      · exact h1
      · exact absurd h2 hcs
    · simp at h
  · intro h
    rw [pyChunks]
    simp [h]

/-- Fuel-indexed chunk-size bounds: every chunk is non-empty and no longer
than the slice width. -/
theorem pyChunks_mem_aux (cs : Nat) (hcs : cs ≠ 0) :
    ∀ n : Nat, ∀ l : Bytes, l.length ≤ n →
      ∀ c ∈ pyChunks cs l, c ≠ [] ∧ c.length ≤ cs := by
  intro n
  induction n with
  | zero =>
      intro l hl c hc
      have hnil : l = [] := List.length_eq_zero.mp (Nat.le_zero.mp hl)
      rw [pyChunks] at hc
      simp [hnil] at hc
  | succ n ih =>
      intro l hl c hc
      rw [pyChunks] at hc
      split at hc
      · simp at hc
      · rename_i hcase
        have hl0 : l ≠ [] := fun hnil => hcase (Or.inl hnil)
        rcases List.mem_cons.mp hc with h1 | h2
        · subst h1
          constructor
          · have h1 : 0 < l.length := List.length_pos.mpr hl0
            have h2 : 0 < cs := Nat.pos_of_ne_zero hcs
            intro htake
            have := congrArg List.length htake
            simp only [List.length_take, List.length_nil] at this
            omega
          · simp only [List.length_take]
            exact Nat.min_le_left _ _
        · refine ih (l.drop cs) ?_ c h2
          have h1 : 0 < l.length := List.length_pos.mpr hl0
          have h2 : 0 < cs := Nat.pos_of_ne_zero hcs
          simp only [List.length_drop]
          omega

/-- Every chunk of the slicing loop is non-empty and at most `cs` long. -/
theorem pyChunks_mem (cs : Nat) (hcs : cs ≠ 0) (l : Bytes) (c : Bytes)
    (hc : c ∈ pyChunks cs l) : c ≠ [] ∧ c.length ≤ cs :=
  pyChunks_mem_aux cs hcs l.length l (Nat.le_refl _) c hc

/-- Fuel-indexed form: every chunk except the last has exactly the slice
width. -/
theorem pyChunks_dropLast_aux (cs : Nat) (hcs : cs ≠ 0) :
    ∀ n : Nat, ∀ l : Bytes, l.length ≤ n →
      ∀ c ∈ (pyChunks cs l).dropLast, c.length = cs := by
  intro n
  induction n with
  | zero =>
      intro l hl c hc
      have hnil : l = [] := List.length_eq_zero.mp (Nat.le_zero.mp hl)
      rw [pyChunks] at hc
      simp [hnil] at hc
  | succ n ih =>
      intro l hl c hc
      rw [pyChunks] at hc
      split at hc
      · simp at hc
      · rename_i hcase
        have hl0 : l ≠ [] := fun hnil => hcase (Or.inl hnil)
        have h1 : 0 < l.length := List.length_pos.mpr hl0
        have h2 : 0 < cs := Nat.pos_of_ne_zero hcs
        cases hrest : pyChunks cs (l.drop cs) with
        | nil =>
            rw [hrest] at hc
            simp at hc
        | cons r rs =>
            rw [hrest, List.dropLast_cons₂] at hc
            rcases List.mem_cons.mp hc with hc1 | hc2
            · subst hc1
              have hdrop : l.drop cs ≠ [] := by
                intro hdnil
                rw [(pyChunks_eq_nil_iff cs hcs _).mpr hdnil] at hrest
                exact List.noConfusion hrest
              have hlen : cs < l.length := by
                have := List.length_pos.mpr hdrop
                simp only [List.length_drop] at this
                omega
              simp only [List.length_take]
              omega
            · have := ih (l.drop cs) ?_ c
              · rw [hrest] at this
                exact this hc2
              · simp only [List.length_drop]
                omega

/-- Every chunk except the last has exactly the slice width. -/
theorem pyChunks_dropLast (cs : Nat) (hcs : cs ≠ 0) (l : Bytes) (c : Bytes)
    (hc : c ∈ (pyChunks cs l).dropLast) : c.length = cs :=
  pyChunks_dropLast_aux cs hcs l.length l (Nat.le_refl _) c hc

/-- The generator adapter returns a value on every path. -/
theorem generate_llm_response_ok (env : GenEnv) (t : String) :
    ∃ s, generate_llm_response env t = .ok s := by
  unfold generate_llm_response
  split
  · exact ⟨_, rfl⟩
  · split
    · exact ⟨_, rfl⟩
    · exact ⟨_, rfl⟩

/-- `tts_service.speak` never succeeds with empty audio: the source checks
`out_path.stat().st_size == 0` before returning. -/
theorem speak_ok_ne_nil (env : TtsEnv) (t : String) (op : Option String)
    (bs : Bytes) (h : (speak env t op).result = .ok bs) : bs ≠ [] := by
  unfold speak at h
  repeat' split at h
  all_goals simp_all

/-- `backend.synthesize_speech` never succeeds with empty audio. -/
theorem synthesize_speech_ok_ne_nil (env : TtsEnv) (t : String) (bs : Bytes)
    (h : synthesize_speech env t = .ok bs) : bs ≠ [] := by
  unfold synthesize_speech at h
  split at h
  next bs0 hs =>
    injection h with h2
    subst h2
    exact speak_ok_ne_nil env t none bs0 hs
  next e hs => simp at h

/-- Extracting the binary frames from a successful turn recovers exactly the
chunk list. -/
theorem sentChunks_success (t r : String) (cs : List Bytes) :
    sentChunks (.textResponse t r :: (cs.map .audioChunk ++ [.audioComplete])) = cs := by
  simp only [sentChunks, List.filterMap_cons, List.filterMap_append, List.filterMap_map]
  simp [Function.comp_def]

/-! ## Concrete environments used in witnesses and counterexamples -/

/-- A deployment where Piper runs successfully and writes a 3-byte file. -/
def ttsEnvOk3 : TtsEnv :=
  { exePath := "pexe", modelPath := "pmod", exeExists := true, modelExists := true,
    priorOut := none,
    run := fun _ => { execResult := .ok { returncode := 0, stdoutS := "", stderrS := "" },
                      written := some [1, 2, 3] } }

/-- A deployment where the Piper executable path does not exist. -/
def ttsEnvNoExe : TtsEnv :=
  { exePath := "pexe", modelPath := "pmod", exeExists := false, modelExists := true,
    priorOut := none,
    run := fun _ => { execResult := .error "unreached", written := none } }

/-- A deployment where Piper exits with status 1 after partially writing one
byte. -/
def ttsEnvNonzero : TtsEnv :=
  { exePath := "pexe", modelPath := "pmod", exeExists := true, modelExists := true,
    priorOut := none,
    run := fun _ => { execResult := .ok { returncode := 1, stdoutS := "o", stderrS := "e" },
                      written := some [7] } }

/-- A loaded recognition handle whose backend yields one segment. -/
def sttEnvOk : SttEnv := { modelLoaded := true, backend := fun _ => .ok ["hello"] }

/-- A loaded recognition handle whose backend raises. -/
def sttEnvRaises : SttEnv := { modelLoaded := true, backend := fun _ => .error "decode failed" }

/-- The recognition handle was never initialized. -/
def sttEnvOff : SttEnv := { modelLoaded := false, backend := fun _ => .ok [] }

/-- No generation credential configured. -/
def genEnvNoKey : GenEnv :=
  { apiKey := none, systemPrompt := "sys", remote := fun _ => .error "net" }

/-! ## Claim C1 -/

/-- C1 as stated, at one environment and one input: a non-empty text either
yields non-empty audio or a `SynthesisError`/`ConfigurationError`. -/
def c1ClaimAt (env : TtsEnv) (text : String) : Prop :=
  text ≠ "" →
    (∃ bs, (speak env text none).result = .ok bs ∧ bs ≠ []) ∨
    (∃ e, (speak env text none).result = .error e ∧
      (e.isSynthesisError = true ∨ e.isConfigurationError = true))

/-- C1 (counterexample): the whitespace-only text `" "` is non-empty, yet
`speak` raises `ValueError` — neither a `SynthesisError` nor a
`ConfigurationError` — so the claim as stated fails. -/
theorem c1_counterexample : ¬ c1ClaimAt ttsEnvOk3 " " := by
  intro hcl
  have hres : (speak ttsEnvOk3 " " none).result = .error .valueError := rfl
  rcases hcl (by decide) with ⟨bs, hok, _⟩ | ⟨e, herr, hcls⟩
  · rw [hres] at hok
    exact Except.noConfusion hok
  · rw [hres] at herr
    injection herr with h2
    subst h2
    rcases hcls with h | h <;> simp [SpeakError.isSynthesisError,
      SpeakError.isConfigurationError] at h

/-- C1 (amended): for every input on which the blank-input guard passes
(non-empty after stripping whitespace), `tts_service.speak` either returns
non-empty audio bytes or raises a `SynthesisError` (`PiperError`) or
`ConfigurationError` (`FileNotFoundError`); and for no input whatsoever does
it return successfully with empty audio. -/
theorem c1_nonblank_no_empty_success (env : TtsEnv) (text : String)
    (op : Option String) (hb : isBlank text = false) :
    (∀ bs, (speak env text op).result = .ok bs → bs ≠ []) ∧
    (∀ e, (speak env text op).result = .error e →
      e.isSynthesisError = true ∨ e.isConfigurationError = true) := by
  constructor
  · intro bs h
    exact speak_ok_ne_nil env text op bs h
  · intro e h
    unfold speak at h
    rw [hb] at h
    simp only [Bool.false_eq_true, if_false] at h
    repeat' split at h
    all_goals simp at h
    all_goals subst h
    all_goals simp [SpeakError.isSynthesisError, SpeakError.isConfigurationError]

/-- C1 (witness): the amended statement at the non-zero-exit deployment and
the input `"hi"`. -/
theorem c1_witness :
    (∀ bs, (speak ttsEnvNonzero "hi" none).result = .ok bs → bs ≠ []) ∧
    (∀ e, (speak ttsEnvNonzero "hi" none).result = .error e →
      e.isSynthesisError = true ∨ e.isConfigurationError = true) :=
  c1_nonblank_no_empty_success ttsEnvNonzero "hi" none rfl

/-! ## Claim C2 -/

/-- C2: with an uninitialized recognition handle, `transcribe_audio` fails
with HTTP 503 ("Whisper model not loaded") for every payload, creating no
temporary file. -/
theorem c2_uninitialized_503 (env : SttEnv) (payload : Bytes)
    (h : env.modelLoaded = false) :
    transcribe_audio env payload =
      { result := .error { status := 503, detail := "Whisper model not loaded" },
        tmpCreated := false, tmpRemoved := false } := by
  unfold transcribe_audio
  simp [h]

/-- C2 (witness): the uninitialized-handle deployment on the payload `[5]`. -/
theorem c2_witness :
    transcribe_audio sttEnvOff [5] =
      { result := .error { status := 503, detail := "Whisper model not loaded" },
        tmpCreated := false, tmpRemoved := false } :=
  c2_uninitialized_503 sttEnvOff [5] rfl

/-! ## Claim C3 -/

/-- C3: with no generation credential, the generator adapter returns the
fixed fallback apology for every input text, and the chat route returns
exactly that string with elapsed time `t1 - t0`, which is non-negative when
the clock does not run backwards within the call. -/
theorem c3_no_credential_chat (env : GenEnv) (t0 t1 : Int) (reqText : String)
    (hk : env.apiKey = none) (ht : t0 ≤ t1) :
    generate_llm_response env reqText = .ok fallbackNoKey ∧
    chat_endpoint env t0 t1 reqText =
      .ok { text := fallbackNoKey, processing_time := t1 - t0 } ∧
    0 ≤ t1 - t0 := by
  have hgen : generate_llm_response env reqText = .ok fallbackNoKey := by
    unfold generate_llm_response
    rw [hk]
    rfl
  refine ⟨hgen, ?_, by omega⟩
  unfold chat_endpoint
  rw [hgen]

/-- C3 (witness): the credential-free deployment at the example input
`"What is 2+2?"` and instants 0 and 2; also covers the empty input via the
universally quantified theorem. -/
theorem c3_witness :
    generate_llm_response genEnvNoKey "What is 2+2?" = .ok fallbackNoKey ∧
    chat_endpoint genEnvNoKey 0 2 "What is 2+2?" =
      .ok { text := fallbackNoKey, processing_time := 2 - 0 } ∧
    (0 : Int) ≤ 2 - 0 :=
  c3_no_credential_chat genEnvNoKey 0 2 "What is 2+2?" rfl (by decide)

/-! ## Claim C4 -/

/-- C4: the voice-chat-complete route is the composition of the transcribe,
chat and synthesize routes — under the same external-backend behaviour both
produce the same transcript, reply and base64 audio, and the same structured
error otherwise, for any clock readings. -/
theorem c4_voice_chat_complete_refines_composition (stt : SttEnv) (gen : GenEnv)
    (tts : TtsEnv) (t0 t1 ta0 ta1 tb0 tb1 : Int) (payload : Bytes) :
    vccProj (voice_chat_complete_endpoint stt gen tts t0 t1 payload) =
      composedPipeline stt gen tts ta0 ta1 tb0 tb1 payload := by
  cases h1 : (transcribe_audio stt payload).result with
  | error e =>
      simp [voice_chat_complete_endpoint, composedPipeline, transcribe_endpoint,
        vccProj, h1]
  | ok tr =>
      cases h2 : generate_llm_response gen tr with
      | error e =>
          simp [voice_chat_complete_endpoint, composedPipeline, transcribe_endpoint,
            chat_endpoint, vccProj, h1, h2]
      | ok reply =>
          cases h3 : synthesize_speech tts reply with
          | error e =>
              simp [voice_chat_complete_endpoint, composedPipeline, transcribe_endpoint,
                chat_endpoint, synthesize_endpoint, vccProj, h1, h2, h3]
          | ok bs =>
              simp [voice_chat_complete_endpoint, composedPipeline, transcribe_endpoint,
                chat_endpoint, synthesize_endpoint, vccProj, h1, h2, h3]

/-! ## Claim C5 -/

/-- C5 (code bug): with an initialized handle whose backend raises during
decoding, `transcribe_audio` raises HTTP 500 but leaves the temporary
payload file behind — `os.unlink` sits after the transcription call inside
the `try` block and is skipped on the error path, contradicting the spec's
"removes it afterward, even on error". -/
theorem c5_temp_file_leaked_on_error :
    transcribe_audio sttEnvRaises [0] =
      { result := .error { status := 500, detail := "Transcription failed: decode failed" },
        tmpCreated := true, tmpRemoved := false } := rfl

/-! ## Claim C6 -/

/-- C6: the generator adapter returns a value on every input and under every
remote behaviour, never propagating an exception; the value is the stripped
real reply or one of the two fixed apology strings. -/
theorem c6_generator_never_raises (env : GenEnv) (userText : String) :
    ∃ s, generate_llm_response env userText = .ok s ∧
      (s = fallbackNoKey ∨ s = fallbackError ∨
        ∃ r, env.remote (full_prompt env.systemPrompt userText) = .ok r ∧ s = pyStrip r) := by
  unfold generate_llm_response
  split
  · exact ⟨fallbackNoKey, rfl, Or.inl rfl⟩
  · cases hr : env.remote (full_prompt env.systemPrompt userText) with
    | ok t => exact ⟨pyStrip t, rfl, Or.inr (Or.inr ⟨t, rfl, rfl⟩)⟩
    | error m => exact ⟨fallbackError, rfl, Or.inr (Or.inl rfl)⟩

/-! ## Claim C7 -/

/-- C7: when the Piper subprocess exits non-zero, `speak` raises a
`SynthesisError` carrying the captured standard output and standard error
(both appear verbatim in its message string), and the partially written
output file is removed before the error is raised (final file state `none`,
with an `unlinkOut` action in the trace). -/
theorem c7_nonzero_exit_cleanup (env : TtsEnv) (text : String)
    (op : Option String) (code : Int) (outS errS : String) (w : Bytes)
    (hb : isBlank text = false) (hexe : env.exeExists = true)
    (hmod : env.modelExists = true)
    (hrun : env.run text =
      { execResult := .ok { returncode := code, stdoutS := outS, stderrS := errS },
        written := some w })
    (hcode : code ≠ 0) :
    (speak env text op).result = .error (.piperNonzero code outS errS) ∧
    (speak env text op).outFile = none ∧
    FsEffect.unlinkOut ∈ (speak env text op).effects ∧
    ∃ p q r, (SpeakError.piperNonzero code outS errS).msg = p ++ outS ++ q ++ errS ++ r := by
  have hs : speak env text op =
      { result := .error (.piperNonzero code outS errS),
        effects := (match op with
          | some _ => [FsEffect.mkdirParents]
          | none => [FsEffect.createTemp]) ++ [FsEffect.invokePiper, FsEffect.unlinkOut],
        outFile := none } := by
    unfold speak
    rw [hb, hrun]
    simp [hexe, hmod, hcode]
  refine ⟨by rw [hs], by rw [hs], ?_, ?_⟩
  · rw [hs]
    cases op <;> simp
  · refine ⟨"Piper failed (code=" ++ toString code ++ "). stdout: " ++ "\x27",
      "\x27" ++ " stderr: " ++ "\x27", "\x27", ?_⟩
    simp only [SpeakError.msg, pyRepr, String.append_assoc]

/-- C7 (witness): the non-zero-exit deployment on input `"hi"`. -/
theorem c7_witness :
    (speak ttsEnvNonzero "hi" none).result = .error (.piperNonzero 1 "o" "e") ∧
    (speak ttsEnvNonzero "hi" none).outFile = none ∧
    FsEffect.unlinkOut ∈ (speak ttsEnvNonzero "hi" none).effects ∧
    ∃ p q r, (SpeakError.piperNonzero 1 "o" "e").msg = p ++ "o" ++ q ++ "e" ++ r :=
  c7_nonzero_exit_cleanup ttsEnvNonzero "hi" none 1 "o" "e" [7] rfl rfl rfl rfl
    (by decide)

/-! ## Claim C8 -/

/-- C8 as stated: one turn emits either exactly one `text_response`, then one
or more binary chunks, then exactly one `audio_complete`; or a single error
message. -/
def turnWellFormed (ms : List WsMsg) : Prop :=
  (∃ t r cs, cs ≠ [] ∧
    ms = .textResponse t r :: (cs.map .audioChunk ++ [.audioComplete])) ∨
  (∃ m, ms = [.errorMsg m])

/-- C8 as stated, at one environment and one inbound frame: the turn is
well formed and the channel stays `Open` afterwards. -/
def c8ClaimAt (stt : SttEnv) (gen : GenEnv) (tts : TtsEnv) (payload : Bytes) : Prop :=
  turnWellFormed (processTurn stt gen tts payload) ∧
  wsStep stt gen tts .Open (.frame payload) = (processTurn stt gen tts payload, .Open)

/-- C8 (counterexample): if transcription and generation succeed but
synthesis fails, the turn emits a `text_response` *followed by* an error
message — not a single error message — so the claimed two-shape alternative
fails. -/
theorem c8_counterexample : ¬ c8ClaimAt sttEnvOk genEnvNoKey ttsEnvNoExe [0] := by
  intro hcl
  obtain ⟨h1, _⟩ := hcl
  have hshape : ∃ t r m, processTurn sttEnvOk genEnvNoKey ttsEnvNoExe [0] =
      [.textResponse t r, .errorMsg m] := ⟨_, _, _, rfl⟩
  rcases hshape with ⟨t, r, m, hEq⟩
  rw [hEq] at h1
  rcases h1 with ⟨t2, r2, cs, hcs, hms⟩ | ⟨m2, hms⟩
  · cases cs with
    | nil => exact hcs rfl
    | cons c cs2 => simp at hms
  · simp at hms

/-- The shapes a turn can actually take: full success; an error message
alone (recognition or generation raised before anything was sent); or a
`text_response` followed by an error message (synthesis raised after the
text message had already been sent). -/
def turnShape (ms : List WsMsg) : Prop :=
  (∃ t r cs, cs ≠ [] ∧
    ms = .textResponse t r :: (cs.map .audioChunk ++ [.audioComplete])) ∨
  (∃ m, ms = [.errorMsg m]) ∨
  (∃ t r m, ms = [.textResponse t r, .errorMsg m])

/-- C8 (amended): each inbound frame yields exactly one of three message
sequences — one `text_response`, then one or more binary chunks, then one
`audio_complete`; or a single error message when a stage fails before the
text message is sent; or one `text_response` followed by one error message
when synthesis fails afterwards — and in every case the channel remains
`Open` for the next frame. -/
theorem c8_turn_shape (stt : SttEnv) (gen : GenEnv) (tts : TtsEnv) (payload : Bytes) :
    turnShape (processTurn stt gen tts payload) ∧
    wsStep stt gen tts .Open (.frame payload) = (processTurn stt gen tts payload, .Open) := by
  refine ⟨?_, rfl⟩
  unfold turnShape
  cases h1 : (transcribe_audio stt payload).result with
  | error e =>
      refine Or.inr (Or.inl ⟨herrStr e, ?_⟩)
      simp [processTurn, h1]
  | ok tr =>
      obtain ⟨s, hs⟩ := generate_llm_response_ok gen tr
      cases h3 : synthesize_speech tts s with
      | error e =>
          refine Or.inr (Or.inr ⟨tr, s, herrStr e, ?_⟩)
          simp [processTurn, h1, hs, h3]
      | ok bs =>
          refine Or.inl ⟨tr, s, pyChunks 8192 bs, ?_, ?_⟩
          · intro hnil
            exact synthesize_speech_ok_ne_nil tts s bs h3
              ((pyChunks_eq_nil_iff 8192 (by decide) bs).mp hnil)
          · simp [processTurn, h1, hs, h3]

/-! ## Claim C9 -/

/-- C9 as stated, at one environment and one frame: on a successful turn
every sent binary chunk has size exactly 8192 and the chunks concatenate to
the synthesized audio. -/
def c9ClaimAt (stt : SttEnv) (gen : GenEnv) (tts : TtsEnv) (payload : Bytes) : Prop :=
  ∀ tr reply bs,
    (transcribe_audio stt payload).result = .ok tr →
    generate_llm_response gen tr = .ok reply →
    synthesize_speech tts reply = .ok bs →
    (∀ c ∈ sentChunks (processTurn stt gen tts payload), c.length = 8192) ∧
    (sentChunks (processTurn stt gen tts payload)).flatten = bs

/-- C9 (counterexample): a successful turn whose synthesized audio is 3 bytes
long sends a single 3-byte chunk, not an 8192-byte one. -/
theorem c9_counterexample : ¬ c9ClaimAt sttEnvOk genEnvNoKey ttsEnvOk3 [0] := by
  intro hcl
  have hpy : pyChunks 8192 ([1, 2, 3] : Bytes) = [[1, 2, 3]] := by
    rw [pyChunks]
    simp
    rw [pyChunks]
    simp
  have hchunks : sentChunks (processTurn sttEnvOk genEnvNoKey ttsEnvOk3 [0]) = [[1, 2, 3]] := by
    show sentChunks (.textResponse (pyStrip (String.intercalate " " ["hello"])) fallbackNoKey ::
      ((pyChunks 8192 ([1, 2, 3] : Bytes)).map .audioChunk ++ [.audioComplete])) = [[1, 2, 3]]
    rw [hpy]
    exact sentChunks_success _ _ _
  obtain ⟨hall, _⟩ := hcl (pyStrip (String.intercalate " " ["hello"])) fallbackNoKey
    [1, 2, 3] rfl rfl rfl
  have h3 := hall [1, 2, 3] (by rw [hchunks]; exact List.mem_singleton.mpr rfl)
  simp at h3

/-- C9 (amended): on a successful turn the sent binary chunks are exactly
the 8192-byte slices of the synthesized audio: every chunk is non-empty and
at most 8192 bytes, every chunk except the last is exactly 8192 bytes, and
their concatenation equals the synthesized audio byte sequence. -/
theorem c9_chunking (stt : SttEnv) (gen : GenEnv) (tts : TtsEnv) (payload : Bytes)
    (tr reply : String) (bs : Bytes)
    (h1 : (transcribe_audio stt payload).result = .ok tr)
    (h2 : generate_llm_response gen tr = .ok reply)
    (h3 : synthesize_speech tts reply = .ok bs) :
    sentChunks (processTurn stt gen tts payload) = pyChunks 8192 bs ∧
    (sentChunks (processTurn stt gen tts payload)).flatten = bs ∧
    (∀ c ∈ sentChunks (processTurn stt gen tts payload), c ≠ [] ∧ c.length ≤ 8192) ∧
    (∀ c ∈ (sentChunks (processTurn stt gen tts payload)).dropLast, c.length = 8192) := by
  have hsc : sentChunks (processTurn stt gen tts payload) = pyChunks 8192 bs := by
    have hp : processTurn stt gen tts payload =
        .textResponse tr reply :: ((pyChunks 8192 bs).map .audioChunk ++ [.audioComplete]) := by
      simp [processTurn, h1, h2, h3]
    rw [hp]
    exact sentChunks_success _ _ _
  refine ⟨hsc, ?_, ?_, ?_⟩
  · rw [hsc]
    exact pyChunks_flatten 8192 (by decide) bs
  · rw [hsc]
    exact fun c hc => pyChunks_mem 8192 (by decide) bs c hc
  · rw [hsc]
    exact fun c hc => pyChunks_dropLast 8192 (by decide) bs c hc

/-- C9 (witness): the amended statement at the 3-byte-audio deployment. -/
theorem c9_witness :
    sentChunks (processTurn sttEnvOk genEnvNoKey ttsEnvOk3 [0]) =
      pyChunks 8192 [1, 2, 3] ∧
    (sentChunks (processTurn sttEnvOk genEnvNoKey ttsEnvOk3 [0])).flatten = [1, 2, 3] ∧
    (∀ c ∈ sentChunks (processTurn sttEnvOk genEnvNoKey ttsEnvOk3 [0]),
      c ≠ [] ∧ c.length ≤ 8192) ∧
    (∀ c ∈ (sentChunks (processTurn sttEnvOk genEnvNoKey ttsEnvOk3 [0])).dropLast,
      c.length = 8192) :=
  c9_chunking sttEnvOk genEnvNoKey ttsEnvOk3 [0]
    (pyStrip (String.intercalate " " ["hello"])) fallbackNoKey [1, 2, 3] rfl rfl rfl

/-! ## Claim C10 -/

/-- C10: a blank (empty or whitespace-only) input makes `speak` raise
`ValueError` with an empty filesystem-effect trace — before path validation
(the error is `ValueError` even in deployments whose executable or model
paths are missing), before any output file is created, and before the
subprocess is invoked. -/
theorem c10_blank_input_rejected (env : TtsEnv) (text : String)
    (op : Option String) (hb : isBlank text = true) :
    speak env text op =
      { result := .error .valueError, effects := [], outFile := initialOut env op } := by
  unfold speak
  rw [hb]
  simp

/-- C10 (witness): the whitespace-only input `" "` on the deployment whose
executable path is missing — still `ValueError`, still no effects. -/
theorem c10_witness :
    speak ttsEnvNoExe " " none =
      { result := .error .valueError, effects := [], outFile := initialOut ttsEnvNoExe none } :=
  c10_blank_input_rejected ttsEnvNoExe " " none rfl

end VoiceAgent
